import Mathlib

/-!
Verification of the SafeSpace mood-support core against its specification.

The data tables (crisis keyword list, crisis response, mood→activity table,
fallback affirmations) and the UI-level handlers (mood selection, history
append, affirmation navigation) are embedded from the frontend sources
(`frontend/utils/moodContent.ts`, `frontend/components/*.tsx`, `App.tsx`).
The backend orchestration operations (`detect`, `normalize`, `generate`)
are not part of the sources available here; they are modelled from the
specification, each marked `Modelled from the spec:` in its doc comment.
Strings are embedded as Lean `String`s; free text scanned by the crisis
detector is handled as `List Char`.
-/

/-- The closed set of mood labels (`MoodType` in `frontend/types/index.ts`). -/
inductive MoodType
  | happy
  | neutral
  | anxious
  | sad
  | angry
  | tired
  | mixed
deriving DecidableEq, Repr

/-- Activity categories (`ActivityContent.type` in `frontend/types/index.ts`). -/
inductive ActivityType
  | breathing
  | audio
  | game
  | journal
  | affirmation
  | music
deriving DecidableEq, Repr

/-- `ActivityContent` from `frontend/types/index.ts`: type, title, description,
optional duration in seconds. -/
structure ActivityContent where
  type : ActivityType
  title : String
  description : String
  duration : Option Nat := none
deriving DecidableEq, Repr

/-- The static mood→activities table from `frontend/utils/moodContent.ts`
(`moodActivities`), transcribed row by row in source order. -/
def moodActivities : MoodType → List ActivityContent
  | .happy =>
    [{ type := .music, title := "AI Celebration Playlist",
       description := "Uplifting music curated by AI to match your joy" },
     { type := .journal, title := "Joy Jar Entry",
       description := "Capture this feeling to revisit later" },
     { type := .affirmation, title := "Positive Affirmations",
       description := "AI-generated affirmations to amplify your happiness" }]
  | .neutral =>
    [{ type := .journal, title := "Daily Reflection",
       description := "Tell me about your day" },
     { type := .breathing, title := "Gentle Breathing",
       description := "Soft breathing to center yourself", duration := some 300 },
     { type := .music, title := "Balanced Playlist",
       description := "AI-curated music for contemplation" }]
  | .anxious =>
    [{ type := .breathing, title := "4-7-8 Breathing",
       description := "Calm your nervous system", duration := some 480 },
     { type := .affirmation, title := "Calming Affirmations",
       description := "AI-powered reassurance and grounding" },
     { type := .game, title := "Grounding Game",
       description := "5-4-3-2-1 sensory grounding exercise" },
     { type := .music, title := "Anxiety Relief Playlist",
       description := "AI-selected calming music for anxiety" }]
  | .sad =>
    [{ type := .affirmation, title := "Compassionate Affirmations",
       description := "AI-generated comfort for difficult moments" },
     { type := .journal, title := "Express Your Feelings",
       description := "Sometimes writing helps" },
     { type := .music, title := "Healing Music",
       description := "AI-curated gentle music for emotional support" },
     { type := .breathing, title := "Healing Breath",
       description := "Breathe through the sadness", duration := some 420 }]
  | .angry =>
    [{ type := .breathing, title := "Cooling Breath",
       description := "Box breathing to release tension", duration := some 360 },
     { type := .affirmation, title := "Grounding Affirmations",
       description := "AI-powered messages to channel your energy" },
     { type := .journal, title := "Release Writing",
       description := "Write out your frustrations safely" },
     { type := .music, title := "Energy Release Playlist",
       description := "AI-selected music to channel anger positively" }]
  | .tired =>
    [{ type := .affirmation, title := "Rest Permission",
       description := "AI-generated reminders that you deserve rest" },
     { type := .breathing, title := "Restorative Breathing",
       description := "Gentle breath for tired souls", duration := some 600 },
     { type := .music, title := "Peaceful Rest Playlist",
       description := "AI-curated sounds for restoration" },
     { type := .journal, title := "Gentle Reflection",
       description := "What's one thing you're proud of today?" }]
  | .mixed =>
    [{ type := .journal, title := "Free Writing",
       description := "Write whatever comes to mind" },
     { type := .breathing, title := "Centering Breath",
       description := "Find your center in complexity", duration := some 450 },
     { type := .affirmation, title := "Understanding Affirmations",
       description := "AI support for complex emotions" },
     { type := .music, title := "Complex Emotions Playlist",
       description := "AI-curated music for mixed feelings" }]

/-- The fixed crisis keyword list from `frontend/utils/moodContent.ts`
(`crisisKeywords`). -/
def crisisKeywords : List String :=
  ["suicide", "kill myself", "end it all", "hurt myself", "self harm",
   "want to die", "better off dead", "can't go on", "hopeless"]

/-- One entry of the crisis resource list (`crisisResponse.resources` in
`frontend/utils/moodContent.ts`); the source rows carry different subsets
of the fields, so each optional field is present only where the source has it. -/
structure CrisisResource where
  name : String
  number : Option String := none
  available : Option String := none
  url : Option String := none
deriving DecidableEq, Repr

/-- The fixed escalation response (`crisisResponse` in
`frontend/utils/moodContent.ts`): crisis message plus resource list. -/
structure CrisisResponse where
  message : String
  resources : List CrisisResource
deriving DecidableEq, Repr

/-- `crisisResponse` from `frontend/utils/moodContent.ts`, transcribed verbatim. -/
def crisisResponse : CrisisResponse :=
  { message := "I'm really concerned about you right now. You're not alone, and there are people who want to help.",
    resources :=
      [{ name := "National Suicide Prevention Lifeline", number := some "988",
         available := some "24/7" },
       { name := "Crisis Text Line", number := some "Text HOME to 741741",
         available := some "24/7" },
       { name := "International Association for Suicide Prevention",
         url := some "https://www.iasp.info/resources/Crisis_Centres/" }]}

/-- `startsWithSeq hay needle` holds when `needle` is an initial segment of
`hay`; the primitive used by substring containment. -/
def startsWithSeq : List Char → List Char → Bool
  | _, [] => true
  | [], _ :: _ => false
  | c :: cs, d :: ds => c == d && startsWithSeq cs ds

/-- `containsSeq hay needle` holds when `needle` occurs contiguously inside
`hay` (the semantics of JavaScript `String.includes`). -/
def containsSeq (hay needle : List Char) : Bool :=
  match hay with
  | [] => needle.isEmpty
  | _ :: t => startsWithSeq hay needle || containsSeq t needle

/-- `CrisisFlag` (§3 of the spec): whether the crisis scan triggered and the
matched keywords. -/
structure CrisisFlag where
  triggered : Bool
  matched_terms : List String
deriving DecidableEq, Repr

/-- Modelled from the spec: the Crisis Detector `detect` (§4.1). The backend
component that scans free text is not among the available sources; only its
keyword list (`crisisKeywords`) and the fixed response (`crisisResponse`) are.
Per §4.1 it performs case-insensitive substring matching of every keyword in
the fixed list against the input text and records all matches. -/
def detect (text : List Char) : CrisisFlag :=
  let lower := text.map Char.toLower
  let matched := crisisKeywords.filter (fun kw => containsSeq lower kw.toList)
  { triggered := !matched.isEmpty, matched_terms := matched }

/-- `MoodAssessment` (§3 of the spec): canonical label, intensity on 1–10,
confidence in [0,1] as a rational. -/
structure MoodAssessment where
  label : MoodType
  intensity : Nat
  confidence : ℚ
deriving DecidableEq, Repr

/-- Modelled from the spec: the floor value for confidence (§4.2 requires a
positive minimum so confidence is never zero; the numeric value is not pinned
by the spec and no claim depends on it). -/
def minConfidence : ℚ := 1/10

/-- Modelled from the spec: text-source normalization default (§4.2). The
backend lexicon-scoring normalizer is not among the available sources and no
claim depends on its vote tables, so only the defensive default
{neutral, 5, minimum confidence} of §4.2 is modelled. -/
def normalizeText (_text : List Char) : MoodAssessment :=
  { label := .neutral, intensity := 5, confidence := minConfidence }

/-- Response of the mood-analysis orchestrator (§6): either the fixed crisis
escalation or a normal mood assessment. -/
inductive AnalyzeResponse
  | crisis (r : CrisisResponse)
  | normal (a : MoodAssessment)
deriving DecidableEq, Repr

/-- Modelled from the spec: the end-to-end handler for a free-text mood request
(§2 control flow, §4.1 precedence rule). The backend orchestrator is not among
the available sources. Crisis detection runs first and short-circuits to the
fixed escalation response; otherwise the normalizer produces a normal response. -/
def analyzeMood (text : List Char) : AnalyzeResponse :=
  if (detect text).triggered then .crisis crisisResponse
  else .normal (normalizeText text)

/- Helper lemmas about substring containment. -/

theorem startsWithSeq_append (needle rest : List Char) :
    startsWithSeq (needle ++ rest) needle = true := by
  induction needle with
  | nil => cases rest <;> rfl
  | cons c cs ih => simp [startsWithSeq, ih]

theorem containsSeq_of_startsWithSeq (hay needle : List Char)
    (h : startsWithSeq hay needle = true) : containsSeq hay needle = true := by
  cases hay with
  | nil =>
    cases needle with
    | nil => rfl
    | cons d ds => simp [startsWithSeq] at h
  | cons c t => simp [containsSeq, h]

theorem containsSeq_cons_of_containsSeq (c : Char) (hay needle : List Char)
    (h : containsSeq hay needle = true) : containsSeq (c :: hay) needle = true := by
  simp [containsSeq, h]

theorem containsSeq_append_left (s hay needle : List Char)
    (h : containsSeq hay needle = true) : containsSeq (s ++ hay) needle = true := by
  induction s with
  | nil => simpa using h
  | cons c cs ih => exact containsSeq_cons_of_containsSeq c _ _ ih

theorem containsSeq_infix (s t needle : List Char) :
    containsSeq (s ++ needle ++ t) needle = true := by
  have h1 : startsWithSeq (needle ++ t) needle = true := startsWithSeq_append needle t
  have h2 : containsSeq (needle ++ t) needle = true :=
    containsSeq_of_startsWithSeq _ _ h1
  have := containsSeq_append_left s (needle ++ t) needle h2
  simpa [List.append_assoc] using this

theorem detect_triggered_of_member (kw : String) (hkw : kw ∈ crisisKeywords)
    (text : List Char) (h : containsSeq (text.map Char.toLower) kw.toList = true) :
    (detect text).triggered = true := by
  have hne : crisisKeywords.filter
      (fun k => containsSeq (text.map Char.toLower) k.toList) ≠ [] :=
    List.ne_nil_of_mem (List.mem_filter.mpr ⟨hkw, h⟩)
  have hfe : (crisisKeywords.filter
      (fun k => containsSeq (text.map Char.toLower) k.toList)).isEmpty = false := by
    cases hfe : (crisisKeywords.filter
        (fun k => containsSeq (text.map Char.toLower) k.toList)).isEmpty with
    | false => rfl
    | true => exact absurd (List.isEmpty_iff.mp hfe) hne
  have hdef : (detect text).triggered = !(crisisKeywords.filter
      (fun k => containsSeq (text.map Char.toLower) k.toList)).isEmpty := rfl
  rw [hdef, hfe]
  rfl

/-- C1: for every keyword in the configured crisis keyword list and every
input text containing that keyword in any letter case, the crisis detector
returns `triggered = true`, and the end-to-end handler for that input returns
the fixed escalation response (crisis message plus resource list), never a
normal mood assessment or content response. -/
theorem crisis_keyword_always_escalates (kw : String) (hkw : kw ∈ crisisKeywords)
    (s v t : List Char) (hv : v.map Char.toLower = kw.toList) :
    (detect (s ++ v ++ t)).triggered = true ∧
    analyzeMood (s ++ v ++ t) = .crisis crisisResponse := by
  have hmap : (s ++ v ++ t).map Char.toLower =
      s.map Char.toLower ++ kw.toList ++ t.map Char.toLower := by
    simp [List.map_append, hv]
  have hc : containsSeq ((s ++ v ++ t).map Char.toLower) kw.toList = true := by
    rw [hmap]; exact containsSeq_infix _ _ _
  have ht := detect_triggered_of_member kw hkw _ hc
  refine ⟨ht, ?_⟩
  unfold analyzeMood
  rw [ht]
  simp

/-- Witness for C1 at keyword "suicide" embedded in mixed case inside a
longer text. -/
theorem crisis_keyword_always_escalates_witness :
    ("suicide" ∈ crisisKeywords ∧
      "SuIcIdE".toList.map Char.toLower = "suicide".toList) ∧
    (detect ("ThInKiNg AbOuT ".toList ++ "SuIcIdE".toList ++ " tonight".toList)).triggered
      = true ∧
    analyzeMood ("ThInKiNg AbOuT ".toList ++ "SuIcIdE".toList ++ " tonight".toList)
      = .crisis crisisResponse :=
  ⟨⟨by decide, by decide⟩,
    (crisis_keyword_always_escalates "suicide" (by decide) _ _ _ (by decide)).1,
    (crisis_keyword_always_escalates "suicide" (by decide) _ _ _ (by decide)).2⟩

/-- C6: the input "I want to end it all" yields a crisis escalation response,
and that response contains a resource entry whose contact number is 988. -/
theorem end_it_all_escalates_with_988 :
    analyzeMood "I want to end it all".toList = .crisis crisisResponse ∧
    ∃ r ∈ crisisResponse.resources, r.number = some "988" := by
  constructor
  · decide
  · decide

/-- `MoodEntry` from `frontend/types/index.ts`. The source stores
`id = Date.now().toString()` and a `Date` timestamp; both are modelled by a
single abstract clock value `now : Nat`. -/
structure MoodEntry where
  id : Nat
  mood : MoodType
  intensity : Nat
  timestamp : Nat
  note : Option String := none
deriving DecidableEq, Repr

/-- The history append performed by `handleMoodSelect` in `App.tsx`:
`setMoodHistory(prev => [moodEntry, ...prev.slice(0, 29)])`. -/
def record (e : MoodEntry) (prev : List MoodEntry) : List MoodEntry :=
  e :: prev.take 29

/-- The `AppState` discriminated union from `App.tsx` (the `stage` field). -/
inductive Stage
  | moodSelection
  | moodContent (mood : MoodType) (intensity : Nat)
  | breathing (mood : MoodType) (duration : Nat)
  | journal (mood : MoodType) (prompt : Option String)
  | game (mood : MoodType)
  | joyJar
  | audio (mood : MoodType)
  | music (mood : MoodType) (intensity : Nat)
  | affirmations (mood : MoodType) (intensity : Nat)
deriving DecidableEq, Repr

/-- The mutable state held by the `App` component: the current stage and the
persisted mood history. -/
structure AppState where
  stage : Stage
  moodHistory : List MoodEntry
deriving DecidableEq, Repr

/-- `handleMoodSelect` from `App.tsx`: records the mood entry into the history
and moves to the mood-content stage. `now` stands for `Date.now()`. -/
def handleMoodSelect (mood : MoodType) (intensity : Nat) (now : Nat)
    (s : AppState) : AppState :=
  { stage := .moodContent mood intensity,
    moodHistory := record { id := now, mood := mood, intensity := intensity,
                            timestamp := now } s.moodHistory }

/-- JavaScript `x || d` on an optional number: `undefined` and `0` are falsy. -/
def jsOrNat (v : Option Nat) (d : Nat) : Nat :=
  match v with
  | some n => if n = 0 then d else n
  | none => d

/-- The stage chosen by `handleActivitySelect` in `App.tsx` for an activity
picked on the mood-content screen. -/
def activityStage (mood : MoodType) (intensity : Nat) (a : ActivityContent) :
    Stage :=
  match a.type with
  | .breathing => .breathing mood (jsOrNat a.duration 300)
  | .journal => .journal mood
      (if a.title = "Joy Jar Entry" then some "What made you happy today?" else none)
  | .game => .game mood
  | .audio => .audio mood
  | .music => .music mood intensity
  | .affirmation => .affirmations mood intensity

/-- `handleActivitySelect` from `App.tsx`: only acts when the current stage is
`mood-content`; it never touches the mood history. -/
def handleActivitySelect (a : ActivityContent) (s : AppState) : AppState :=
  match s.stage with
  | .moodContent mood intensity =>
    { s with stage := activityStage mood intensity a }
  | _ => s

/-- The mood captured in a stage, defaulting to neutral
(`'mood' in appState ? appState.mood : 'neutral'` in `App.tsx`). -/
def stageMood : Stage → MoodType
  | .moodSelection => .neutral
  | .moodContent mood _ => mood
  | .breathing mood _ => mood
  | .journal mood _ => mood
  | .game mood => mood
  | .joyJar => .neutral
  | .audio mood => mood
  | .music mood _ => mood
  | .affirmations mood _ => mood

/-- `handleBack` from `App.tsx`: returns toward mood selection or mood content;
the intensity is re-read from the newest history entry with the JavaScript
fallback `lastMoodEntry?.intensity || 5`. The history itself is not changed. -/
def handleBack (s : AppState) : AppState :=
  match s.stage with
  | .moodSelection => s
  | .moodContent _ _ => { s with stage := .moodSelection }
  | st =>
    let intensity := jsOrNat (s.moodHistory.head?.map MoodEntry.intensity) 5
    { s with stage := Stage.moodContent (stageMood st) intensity }

/-- C3: after every append the per-user mood history holds at most 30 entries,
the new entry sits at the head (most-recent-first) with the surviving tail a
prefix of the previous history in order, the entries evicted on overflow are
exactly a suffix — the oldest — of the previous history and eviction happens
only when the cap would be exceeded, and neither `handleActivitySelect` nor
`handleBack` mutates the history. -/
theorem mood_history_retention :
    (∀ (e : MoodEntry) (prev : List MoodEntry),
      (record e prev).length ≤ 30 ∧
      (record e prev).head? = some e ∧
      prev = (record e prev).tail ++ prev.drop 29 ∧
      (prev.length ≤ 29 → prev.drop 29 = []) ∧
      (30 ≤ prev.length → prev.drop 29 ≠ [])) ∧
    (∀ (a : ActivityContent) (s : AppState),
      (handleActivitySelect a s).moodHistory = s.moodHistory) ∧
    (∀ s : AppState, (handleBack s).moodHistory = s.moodHistory) := by
  refine ⟨fun e prev => ⟨?_, rfl, ?_, ?_, ?_⟩, fun a s => ?_, fun s => ?_⟩
  · have h := List.length_take 29 prev
    simp only [record, List.length_cons, h]
    omega
  · simp [record, List.take_append_drop]
  · intro h
    have : (prev.drop 29).length = 0 := by
      rw [List.length_drop]; omega
    exact List.eq_nil_of_length_eq_zero this
  · intro h hnil
    have : (prev.drop 29).length = 0 := by rw [hnil]; rfl
    rw [List.length_drop] at this
    omega
  · unfold handleActivitySelect
    cases hs : s.stage <;> rfl
  · unfold handleBack
    cases hs : s.stage <;> rfl

/-- Witness for C3 at a full history of 30 identical entries: the nested
hypotheses of `mood_history_retention` are discharged at `prev.length = 30`. -/
theorem mood_history_retention_witness :
    (record { id := 99, mood := .sad, intensity := 6, timestamp := 99 }
      (List.replicate 30 { id := 0, mood := .happy, intensity := 5,
                           timestamp := 0 })).length ≤ 30 ∧
    (List.replicate 30 ({ id := 0, mood := .happy, intensity := 5,
                          timestamp := 0 } : MoodEntry)).drop 29 ≠ [] :=
  ⟨(mood_history_retention.1 _ _).1,
    (mood_history_retention.1
      { id := 99, mood := .sad, intensity := 6, timestamp := 99 }
      (List.replicate 30 { id := 0, mood := .happy, intensity := 5,
                           timestamp := 0 })).2.2.2.2 (by decide)⟩

/-- The Activity Selector `select` (§4.3): a pure lookup of the static
`moodActivities` table at the assessment's label, exactly as
`MoodContent.tsx` reads `moodActivities[mood]`. -/
def select (a : MoodAssessment) : List ActivityContent :=
  moodActivities a.label

/-- C4: for every mood label the selected activity list is non-empty, has 3 to
4 entries in a fixed order, and two calls agreeing on the assessment's label
return identical lists — the lookup is a pure function of the static table. -/
theorem activity_selection_table (a b : MoodAssessment) (hab : a.label = b.label) :
    select a ≠ [] ∧ 3 ≤ (select a).length ∧ (select a).length ≤ 4 ∧
    select a = select b := by
  refine ⟨?_, ?_, ?_, ?_⟩
  · cases h : a.label <;> simp [select, h, moodActivities]
  · cases h : a.label <;> simp [select, h, moodActivities]
  · cases h : a.label <;> simp [select, h, moodActivities]
  · unfold select
    rw [hab]

/-- Witness for C4 at two anxious assessments with different intensity and
confidence. -/
theorem activity_selection_table_witness :
    select { label := .anxious, intensity := 8, confidence := 1 } ≠ [] ∧
    3 ≤ (select { label := .anxious, intensity := 8, confidence := 1 }).length ∧
    (select { label := .anxious, intensity := 8, confidence := 1 }).length ≤ 4 ∧
    select { label := .anxious, intensity := 8, confidence := 1 }
      = select { label := .anxious, intensity := 3, confidence := 1/2 } :=
  activity_selection_table
    { label := .anxious, intensity := 8, confidence := 1 }
    { label := .anxious, intensity := 3, confidence := 1/2 } rfl

/-- Modelled from the spec: the fixed quiz-option table of §4.2 ("direct 1:1
mapping from a fixed quiz-option set to {label, default intensity}"); the
backend quiz normalizer is not among the available sources. Scenario B (§8)
pins "anxious-high" to {anxious, 8}; the remaining options pair each label
with a low or high default intensity in the same pattern. -/
def quizOptions : List (String × MoodType × Nat) :=
  [("happy-low", .happy, 3), ("happy-high", .happy, 8),
   ("neutral-low", .neutral, 3), ("neutral-high", .neutral, 8),
   ("anxious-low", .anxious, 3), ("anxious-high", .anxious, 8),
   ("sad-low", .sad, 3), ("sad-high", .sad, 8),
   ("angry-low", .angry, 3), ("angry-high", .angry, 8),
   ("tired-low", .tired, 3), ("tired-high", .tired, 8),
   ("mixed-low", .mixed, 3), ("mixed-high", .mixed, 8)]

/-- Modelled from the spec: quiz-source normalization (§4.2): a recognized
quiz option maps 1:1 to its {label, default intensity} with confidence 1.0;
unrecognized input normalizes to neutral with reduced confidence (§3). -/
def normalizeQuiz (choice : String) : MoodAssessment :=
  match quizOptions.find? (fun o => o.1 == choice) with
  | some o => { label := o.2.1, intensity := o.2.2, confidence := 1 }
  | none => { label := .neutral, intensity := 5, confidence := minConfidence }

/-- C7: the quiz choice "anxious-high" normalizes to the assessment
{anxious, intensity 8, confidence 1.0}; the activity list selected for it
leads with a breathing activity, and every breathing entry appears before any
music entry. -/
theorem quiz_anxious_high_breathing_before_music :
    normalizeQuiz "anxious-high"
      = { label := .anxious, intensity := 8, confidence := 1 } ∧
    (select (normalizeQuiz "anxious-high")).head?.map ActivityContent.type
      = some .breathing ∧
    ∀ (i j : Fin (select (normalizeQuiz "anxious-high")).length),
      ((select (normalizeQuiz "anxious-high")).get i).type = .breathing →
      ((select (normalizeQuiz "anxious-high")).get j).type = .music →
      (i : Nat) < (j : Nat) := by
  refine ⟨by decide, by decide, by decide⟩

/-- Witness for C7: the breathing entry at index 0 precedes the music entry at
index 3 of the anxious activity list. -/
theorem quiz_anxious_high_witness :
    ((select (normalizeQuiz "anxious-high")).get ⟨0, by decide⟩).type
      = .breathing ∧
    ((select (normalizeQuiz "anxious-high")).get ⟨3, by decide⟩).type
      = .music ∧
    (0 : Nat) < 3 :=
  ⟨by decide, by decide,
    quiz_anxious_high_breathing_before_music.2.2 ⟨0, by decide⟩ ⟨3, by decide⟩
      (by decide) (by decide)⟩

/-- Provenance tag on generated content (§3): AI-backed or deterministic
fallback. -/
inductive Provenance
  | ai
  | fallback
deriving DecidableEq, Repr

/-- A playlist track: `{title, artist}` (§4.4, `MusicPlayer.tsx`). -/
structure Track where
  title : String
  artist : String
deriving DecidableEq, Repr

/-- The two content kinds of §3 (`GeneratedContent.kind`). -/
inductive ContentKind
  | playlist
  | affirmation_set
deriving DecidableEq, Repr

/-- Structured content payload, one shape per kind (§6): an ordered track list
for playlists; an ordered affirmation list plus personalized message and
optional breathing instruction for affirmation sets. -/
inductive Payload
  | tracks (ts : List Track)
  | affirmations (items : List String) (message : String)
      (breathing : Option String)
deriving DecidableEq, Repr

/-- `GeneratedContent` (§3): kind, payload, and a mandatory provenance tag. -/
structure GeneratedContent where
  kind : ContentKind
  payload : Payload
  provenance : Provenance
deriving DecidableEq, Repr

/-- Minimum item count accepted from the AI payload and guaranteed by the
fallback templates (§4.4 step 3: "at least 3 items"). -/
def minItems : Nat := 3

/-- Number of primary items in a payload: tracks of a playlist, affirmations
of an affirmation set. -/
def payloadCount : Payload → Nat
  | .tracks ts => ts.length
  | .affirmations items _ _ => items.length

/-- Schema validation of an AI payload for a content kind (§4.4 step 3): the
shape must match the kind and the item count must reach the minimum. -/
def validPayload : ContentKind → Payload → Bool
  | .playlist, .tracks ts => decide (minItems ≤ ts.length)
  | .affirmation_set, .affirmations items _ _ => decide (minItems ≤ items.length)
  | _, _ => false

/-- The static fallback affirmation pool from the catch branch of
`generateAffirmations` in `AffirmationsPlayer.tsx`. -/
def fallbackAffirmations : List String :=
  ["I am worthy of love and compassion",
   "This feeling is temporary and will pass",
   "I have the strength to get through this",
   "I am doing my best, and that's enough",
   "I deserve peace and happiness"]

/-- The fallback personalized message from `AffirmationsPlayer.tsx`. -/
def fallbackPersonalizedMessage : String :=
  "You're taking great care of yourself by being here."

/-- The fallback breathing instruction from `AffirmationsPlayer.tsx`: present
exactly for the anxious mood. -/
def fallbackBreathingInstruction (mood : MoodType) : Option String :=
  if mood = .anxious then
    some "Take a slow, deep breath in for 4 counts, hold for 4, then exhale for 6 counts"
  else none

/-- The lower-case name of each mood label, as rendered into content strings. -/
def moodName : MoodType → String
  | .happy => "happy"
  | .neutral => "neutral"
  | .anxious => "anxious"
  | .sad => "sad"
  | .angry => "angry"
  | .tired => "tired"
  | .mixed => "mixed"

/-- Modelled from the spec: the deterministic fallback track list of §4.4
step 5 ("canned track list tagged with the mood name"); the backend music
fallback templates are not among the available sources. Three tracks, a pure
function of the mood alone. -/
def fallbackTracks (mood : MoodType) : List Track :=
  [{ title := "Calm for a " ++ moodName mood ++ " moment", artist := "SafeSpace" },
   { title := "Gentle " ++ moodName mood ++ " companion", artist := "SafeSpace" },
   { title := "Breathing through " ++ moodName mood, artist := "SafeSpace" }]

/-- Modelled from the spec: the per-mood fallback template of §4.4 step 5,
selected by content kind; the affirmation pool, message and breathing
instruction are the static fallback data of `AffirmationsPlayer.tsx`. A pure
function of {kind, mood, intensity}. -/
def fallbackPayload : ContentKind → MoodType → Nat → Payload
  | .playlist, mood, _ => .tracks (fallbackTracks mood)
  | .affirmation_set, mood, _ =>
    .affirmations fallbackAffirmations fallbackPersonalizedMessage
      (fallbackBreathingInstruction mood)

/-- Outcome of one attempt against the external AI capability (§4.4):
a transient failure (network error, 5xx, timeout) or a returned payload,
possibly malformed. -/
inductive AIOutcome
  | transientFailure
  | payload (p : Payload)
deriving DecidableEq, Repr

/-- Modelled from the spec: the Content Generator `generate` (§4.4); the
backend/LLM-service generator is not among the available sources. The first
attempt's payload is schema-validated; a transient failure is retried exactly
once; any remaining failure (second transient failure or invalid payload)
resolves to the deterministic fallback template with provenance `fallback`;
a validated payload is returned with provenance `ai`. The function is total:
no outcome raises. -/
def generate (kind : ContentKind) (mood : MoodType) (intensity : Nat)
    (attempt1 attempt2 : AIOutcome) : GeneratedContent :=
  match attempt1 with
  | .payload p =>
    if validPayload kind p then
      { kind := kind, payload := p, provenance := .ai }
    else
      { kind := kind, payload := fallbackPayload kind mood intensity,
        provenance := .fallback }
  | .transientFailure =>
    match attempt2 with
    | .payload p =>
      if validPayload kind p then
        { kind := kind, payload := p, provenance := .ai }
      else
        { kind := kind, payload := fallbackPayload kind mood intensity,
          provenance := .fallback }
    | .transientFailure =>
      { kind := kind, payload := fallbackPayload kind mood intensity,
        provenance := .fallback }

theorem validPayload_count {kind : ContentKind} {p : Payload}
    (h : validPayload kind p = true) : minItems ≤ payloadCount p := by
  cases kind <;> cases p <;> simp [validPayload] at h <;>
    simpa [payloadCount] using h

theorem fallbackPayload_count (kind : ContentKind) (mood : MoodType)
    (intensity : Nat) : minItems ≤ payloadCount (fallbackPayload kind mood intensity) := by
  cases kind <;> cases mood <;>
    simp [fallbackPayload, payloadCount, fallbackTracks, fallbackAffirmations,
      minItems]

theorem generate_fallback_eq (kind : ContentKind) (mood : MoodType)
    (intensity : Nat) (a1 a2 : AIOutcome)
    (h : (generate kind mood intensity a1 a2).provenance = .fallback) :
    generate kind mood intensity a1 a2 =
      { kind := kind, payload := fallbackPayload kind mood intensity,
        provenance := .fallback } := by
  cases a1 with
  | payload p =>
    by_cases hv : validPayload kind p = true
    · simp [generate, hv] at h
    · simp [generate, hv]
  | transientFailure =>
    cases a2 with
    | payload p =>
      by_cases hv : validPayload kind p = true
      · simp [generate, hv] at h
      · simp [generate, hv]
    | transientFailure => rfl

/-- C2: for every content request of either kind and every behaviour of the
AI capability over its two attempts, `generate` returns a `GeneratedContent`
tagged `ai` or `fallback`, of the requested kind, whose payload carries at
least the minimum required number of items (3); being a total function it
never raises to the caller. -/
theorem generate_never_fails (kind : ContentKind) (mood : MoodType)
    (intensity : Nat) (a1 a2 : AIOutcome) :
    ((generate kind mood intensity a1 a2).provenance = .ai ∨
      (generate kind mood intensity a1 a2).provenance = .fallback) ∧
    (generate kind mood intensity a1 a2).kind = kind ∧
    minItems ≤ payloadCount (generate kind mood intensity a1 a2).payload := by
  have hmain : ∀ p : Payload, validPayload kind p = true →
      minItems ≤ payloadCount p := fun p hp => validPayload_count hp
  cases a1 with
  | payload p =>
    by_cases hv : validPayload kind p = true
    · exact ⟨Or.inl (by simp [generate, hv]), by simp [generate, hv],
        by simpa [generate, hv] using hmain p hv⟩
    · exact ⟨Or.inr (by simp [generate, hv]), by simp [generate, hv],
        by simpa [generate, hv] using fallbackPayload_count kind mood intensity⟩
  | transientFailure =>
    cases a2 with
    | payload p =>
      by_cases hv : validPayload kind p = true
      · exact ⟨Or.inl (by simp [generate, hv]), by simp [generate, hv],
          by simpa [generate, hv] using hmain p hv⟩
      · exact ⟨Or.inr (by simp [generate, hv]), by simp [generate, hv],
          by simpa [generate, hv] using fallbackPayload_count kind mood intensity⟩
    | transientFailure =>
      exact ⟨Or.inr rfl, rfl, fallbackPayload_count kind mood intensity⟩

/-- C5: whenever two runs of `generate` for the same {kind, mood, intensity}
both resolve through the fallback path, they return the identical payload —
the fallback is a deterministic function of the request; in particular the
playlist request {sad, 6} whose AI capability times out on both attempts
returns provenance `fallback` with at least 3 tracks, and repeating that
request yields the identical result. -/
theorem fallback_generation_idempotent :
    (∀ (kind : ContentKind) (mood : MoodType) (intensity : Nat)
        (a1 a2 b1 b2 : AIOutcome),
      (generate kind mood intensity a1 a2).provenance = .fallback →
      (generate kind mood intensity b1 b2).provenance = .fallback →
      generate kind mood intensity a1 a2 = generate kind mood intensity b1 b2) ∧
    (generate .playlist .sad 6 .transientFailure .transientFailure).provenance
      = .fallback ∧
    minItems ≤ payloadCount
      (generate .playlist .sad 6 .transientFailure .transientFailure).payload ∧
    generate .playlist .sad 6 .transientFailure .transientFailure
      = generate .playlist .sad 6 .transientFailure .transientFailure := by
  refine ⟨fun kind mood intensity a1 a2 b1 b2 h1 h2 => ?_, rfl, by decide, rfl⟩
  rw [generate_fallback_eq kind mood intensity a1 a2 h1,
    generate_fallback_eq kind mood intensity b1 b2 h2]

/-- Witness for C5: a double timeout and a timeout followed by a malformed
(empty) payload resolve to the identical fallback playlist for {sad, 6}. -/
theorem fallback_generation_idempotent_witness :
    generate .playlist .sad 6 .transientFailure .transientFailure
      = generate .playlist .sad 6 .transientFailure (.payload (.tracks [])) :=
  fallback_generation_idempotent.1 .playlist .sad 6
    .transientFailure .transientFailure .transientFailure (.payload (.tracks []))
    (by decide) (by decide)

/-- The local state of `MoodSelector.tsx`: the currently selected mood (none
until a mood button is clicked) and the intensity slider value, initialised
with `React.useState(5)`. -/
structure SelectorState where
  selectedMood : Option MoodType
  intensity : Nat
deriving DecidableEq, Repr

/-- The initial `MoodSelector` state: no mood selected, intensity 5. -/
def selectorInit : SelectorState :=
  { selectedMood := none, intensity := 5 }

/-- The user interactions on the `MoodSelector` screen: clicking a mood button
(`handleMoodClick`) or moving the intensity range input (`setIntensity`). -/
inductive SelectorEvent
  | clickMood (m : MoodType)
  | setIntensity (v : Nat)
deriving DecidableEq, Repr

/-- One step of the `MoodSelector` state: `handleMoodClick` stores the mood,
the range input's onChange stores the intensity. -/
def selectorStep (s : SelectorState) : SelectorEvent → SelectorState
  | .clickMood m => { s with selectedMood := some m }
  | .setIntensity v => { s with intensity := v }

/-- Run a sequence of interactions from the initial state. -/
def runSelector (events : List SelectorEvent) : SelectorState :=
  events.foldl selectorStep selectorInit

/-- `handleContinue` in `MoodSelector.tsx`: emits `(mood, intensity)` through
`onMoodSelect` only when a mood has been selected. -/
def handleContinue (s : SelectorState) : Option (MoodType × Nat) :=
  s.selectedMood.map (fun m => (m, s.intensity))

/-- Whether an event is a slider move that the range input
(`min="1" max="10"` in `MoodSelector.tsx`) could emit; mood clicks are
unconstrained. -/
def selectorEventValid : SelectorEvent → Bool
  | .setIntensity v => decide (1 ≤ v ∧ v ≤ 10)
  | .clickMood _ => true

/-- Whether an event moves the intensity slider. -/
def movesIntensity : SelectorEvent → Bool
  | .setIntensity _ => true
  | .clickMood _ => false

theorem selector_foldl_bounds (events : List SelectorEvent) :
    ∀ s : SelectorState, (∀ e ∈ events, selectorEventValid e = true) →
    1 ≤ s.intensity → s.intensity ≤ 10 →
    1 ≤ (events.foldl selectorStep s).intensity ∧
      (events.foldl selectorStep s).intensity ≤ 10 := by
  induction events with
  | nil => exact fun s _ h1 h2 => ⟨h1, h2⟩
  | cons e rest ih =>
    intro s hvalid h1 h2
    have hv : selectorEventValid e = true := hvalid e (List.mem_cons_self e rest)
    have hrest : ∀ x ∈ rest, selectorEventValid x = true :=
      fun x hx => hvalid x (List.mem_cons_of_mem e hx)
    cases e with
    | clickMood m => exact ih _ hrest h1 h2
    | setIntensity v =>
      have hb : 1 ≤ v ∧ v ≤ 10 := of_decide_eq_true hv
      exact ih _ hrest hb.1 hb.2

theorem selector_foldl_intensity_const (events : List SelectorEvent) :
    ∀ s : SelectorState, (∀ e ∈ events, movesIntensity e = false) →
    (events.foldl selectorStep s).intensity = s.intensity := by
  induction events with
  | nil => exact fun _ _ => rfl
  | cons e rest ih =>
    intro s hnone
    have he : movesIntensity e = false := hnone e (List.mem_cons_self e rest)
    have hrest : ∀ x ∈ rest, movesIntensity x = false :=
      fun x hx => hnone x (List.mem_cons_of_mem e hx)
    cases e with
    | clickMood m => exact ih _ hrest
    | setIntensity v => simp [movesIntensity] at he

/-- C8: after any sequence of interactions the slider's range constraint keeps
the intensity inside [1,10], so every `(mood, intensity)` pair emitted by
`handleContinue` carries an intensity in [1,10]; and when the slider is never
moved the emitted intensity is the mid-scale default 5. -/
theorem mood_selector_intensity (events : List SelectorEvent)
    (hvalid : ∀ e ∈ events, selectorEventValid e = true) :
    (1 ≤ (runSelector events).intensity ∧ (runSelector events).intensity ≤ 10) ∧
    (∀ (m : MoodType) (i : Nat),
      handleContinue (runSelector events) = some (m, i) → 1 ≤ i ∧ i ≤ 10) ∧
    ((∀ e ∈ events, movesIntensity e = false) →
      (runSelector events).intensity = 5) := by
  have hb := selector_foldl_bounds events selectorInit hvalid (by decide) (by decide)
  refine ⟨hb, fun m i hemit => ?_, fun hnone => ?_⟩
  · unfold handleContinue at hemit
    cases hsel : (runSelector events).selectedMood with
    | none => rw [hsel] at hemit; simp at hemit
    | some m' =>
      rw [hsel] at hemit
      simp at hemit
      rw [← hemit.2]
      exact hb
  · exact selector_foldl_intensity_const events selectorInit hnone

/-- Witness for C8: clicking sad then setting the slider to 7 keeps the
intensity in range; clicking happy without touching the slider leaves the
default 5. -/
theorem mood_selector_intensity_witness :
    (1 ≤ (runSelector [.clickMood .sad, .setIntensity 7]).intensity ∧
      (runSelector [.clickMood .sad, .setIntensity 7]).intensity ≤ 10) ∧
    (runSelector [SelectorEvent.clickMood .happy]).intensity = 5 :=
  ⟨(mood_selector_intensity [.clickMood .sad, .setIntensity 7] (by decide)).1,
    (mood_selector_intensity [SelectorEvent.clickMood .happy] (by decide)).2.2
      (by decide)⟩

/-- `handleNext` from `AffirmationsPlayer.tsx` (also the body of the 8-second
auto-play timer): advance, wrapping past the last affirmation to index 0.
`n` is the number of loaded affirmations. -/
def handleNext (n i : Nat) : Nat :=
  if i < n - 1 then i + 1 else 0

/-- `handlePrevious` from `AffirmationsPlayer.tsx`: step back, wrapping from
index 0 to the last affirmation. -/
def handlePrevious (n i : Nat) : Nat :=
  if 0 < i then i - 1 else n - 1

/-- The navigation operations on the affirmation player: the next button, the
previous button, one tick of the 8-second auto-play timer (same update as the
next button), and selecting an affirmation from the rendered list
(`setCurrentAffirmation(index)`). -/
inductive NavOp
  | next
  | previous
  | autoTick
  | jump (k : Nat)
deriving DecidableEq, Repr

/-- One navigation step on the current index. -/
def navStep (n i : Nat) : NavOp → Nat
  | .next => handleNext n i
  | .previous => handlePrevious n i
  | .autoTick => handleNext n i
  | .jump k => k

/-- Whether an operation can occur in the UI: a jump target always comes from
mapping over the loaded affirmation list, so it is below `n`. -/
def navOpValid (n : Nat) : NavOp → Bool
  | .jump k => decide (k < n)
  | _ => true

/-- C9: with `n ≥ 1` affirmations loaded and a current index in `[0, n-1]`,
every navigation operation (next, previous, auto-play tick, list selection)
keeps the index in `[0, n-1]`; advancing from the last affirmation wraps to 0
(the auto-play tick acting exactly like the next button), and stepping back
from 0 wraps to `n-1`. -/
theorem affirmation_index_invariant (n i : Nat) (hn : 1 ≤ n) (hi : i < n) :
    (∀ op : NavOp, navOpValid n op = true → navStep n i op < n) ∧
    handleNext n (n - 1) = 0 ∧
    handlePrevious n 0 = n - 1 ∧
    (∀ j : Nat, navStep n j .autoTick = navStep n j .next) ∧
    (i < n - 1 → handleNext n i = i + 1) ∧
    (0 < i → handlePrevious n i = i - 1) := by
  refine ⟨fun op hop => ?_, ?_, ?_, fun j => rfl, fun h => if_pos h, fun h => if_pos h⟩
  · cases op with
    | next =>
      simp only [navStep, handleNext]
      split <;> omega
    | previous =>
      simp only [navStep, handlePrevious]
      split <;> omega
    | autoTick =>
      simp only [navStep, handleNext]
      split <;> omega
    | jump k =>
      simpa [navStep, navOpValid] using of_decide_eq_true hop
  · simp only [handleNext]
    split <;> omega
  · simp only [handlePrevious]
    split <;> omega

/-- Witness for C9 with 5 affirmations (the fallback pool size) at the last
index: next wraps to 0 and previous from 0 wraps to 4. -/
theorem affirmation_index_invariant_witness :
    navStep 5 4 .next < 5 ∧ handleNext 5 (5 - 1) = 0 ∧ handlePrevious 5 0 = 5 - 1 :=
  ⟨(affirmation_index_invariant 5 4 (by decide) (by decide)).1 .next (by decide),
    (affirmation_index_invariant 5 4 (by decide) (by decide)).2.1,
    (affirmation_index_invariant 5 4 (by decide) (by decide)).2.2.1⟩
